import Mathlib

/-!
Verification of the memory-bank MCP server's redundancy detector, content
router and behavior profiler, shallowly embedded from
`src/mcp_memory_bank/middlewares.py`, `server.py` and `tools.py`.
Machine floats in ratio computations are modelled as exact rationals.
String primitives (`lower`, `split`, `endswith`, `in`) are re-implemented
over character lists so that every definition kernel-evaluates.
-/

namespace MemoryBank

/-- Python `s.lower()` (character-wise lowercasing). -/
def lowerStr (s : String) : String :=
  String.mk (s.toList.map Char.toLower)

/-- Python `pat in s` substring containment over strings. -/
def strContains (s pat : String) : Bool :=
  let sl := s.toList
  let pl := pat.toList
  (List.range (sl.length + 1)).any (fun i => (sl.drop i).take pl.length == pl)

/-- Python `s.endswith(suffix)`. -/
def endsWithStr (s suffix : String) : Bool :=
  let sl := s.toList
  let tl := suffix.toList
  sl.drop (sl.length - tl.length) == tl

/-- Helper for `splitWs`: walk the characters, accumulating the current
word reversed; whitespace closes the word (empty runs dropped). -/
def splitWsAux : List Char → List Char → List String
  | [], acc => if acc.isEmpty then [] else [String.mk acc.reverse]
  | c :: rest, acc =>
    if c.isWhitespace then
      if acc.isEmpty then splitWsAux rest []
      else String.mk acc.reverse :: splitWsAux rest []
    else splitWsAux rest (c :: acc)

/-- Python `s.split()`: split on whitespace runs, dropping empty pieces. -/
def splitWs (s : String) : List String :=
  splitWsAux s.toList []

/-- `set(content.lower().split())` from
`CrossReferenceRedundancyMiddleware._find_similar_content`. -/
def wordSet (s : String) : Finset String :=
  (splitWs (lowerStr s)).toFinset

/-- The similarity computed in `_find_similar_content`: Jaccard
`|A∩B| / |A∪B|`, computed only under the `union > 0` guard (`none`
when both sets are empty, in which case the code skips the file). -/
def similarityOpt (A B : Finset String) : Option ℚ :=
  if 0 < (A ∪ B).card then
    some (((A ∩ B).card : ℚ) / ((A ∪ B).card : ℚ))
  else none

/-- One markdown file of the memory bank, as seen by the redundancy scan:
its path relative to the memory-bank root and its text content. -/
structure DocFile where
  relativePath : String
  content : String
deriving DecidableEq, Repr

/-- The self-comparison exclusion in `_find_similar_content`:
`relative_path == current_file or current_file.endswith(relative_path)`. -/
def isSelfPath (currentFile relativePath : String) : Bool :=
  relativePath == currentFile || endsWithStr currentFile relativePath

/-- `_find_similar_content(content, current_file)` over the markdown files
`files` found under the memory-bank root: a file is appended when it is not
the target (path-suffix matching), the union of word sets is non-empty and
the Jaccard similarity is strictly above the 0.3 threshold. -/
def findSimilarContent (content : String) (currentFile : String)
    (files : List DocFile) : List String :=
  let contentWords := wordSet content
  files.filterMap (fun f =>
    if isSelfPath currentFile f.relativePath then none
    else
      let existingWords := wordSet f.content
      match similarityOpt contentWords existingWords with
      | some sim => if 3/10 < sim then some f.relativePath else none
      | none => none)

/-- Executable form of `findSimilarContent`: the rational comparison
`intersection / union > 3/10` is replaced by the equivalent integer
comparison `3 * union < 10 * intersection` so that concrete runs
kernel-evaluate. Proven equal to `findSimilarContent` below. -/
def findSimilarRun (content : String) (currentFile : String)
    (files : List DocFile) : List String :=
  let contentWords := wordSet content
  files.filterMap (fun f =>
    if isSelfPath currentFile f.relativePath then none
    else
      let existingWords := wordSet f.content
      let inter := (contentWords ∩ existingWords).card
      let union := (contentWords ∪ existingWords).card
      if 0 < union ∧ 3 * union < 10 * inter then some f.relativePath
      else none)

/-! ### Content router (`server.py`, `smart_project_analysis_and_routing`) -/

/-- Context category indicators. -/
def contextIndicators : List String :=
  ["overview", "stakeholder", "business", "goal", "objective",
   "requirement", "user", "customer"]

/-- Technical-specification category indicators. -/
def techIndicators : List String :=
  ["architecture", "design", "pattern", "structure", "component"]

/-- DevOps category indicators. -/
def devopsIndicators : List String :=
  ["deploy", "infrastructure", "server", "cloud", "pipeline",
   "ci/cd", "monitoring", "build"]

/-- Dynamic-metadata category indicators. -/
def metaIndicators : List String :=
  ["change", "decision", "config", "update", "modify", "log",
   "history", "version"]

/-- `sum(1 for indicator in indicators if indicator in content_lower)`. -/
def categoryScore (indicators : List String) (contentLower : String) : ℕ :=
  (indicators.filter (fun ind => strContains contentLower ind)).length

/-- The `category_scores` dict, in insertion order. -/
def categoryScores (content : String) : List (String × ℕ) :=
  let cl := lowerStr content
  [("context", categoryScore contextIndicators cl),
   ("tech_specs", categoryScore techIndicators cl),
   ("devops", categoryScore devopsIndicators cl),
   ("dynamic_meta", categoryScore metaIndicators cl)]

/-- `max(category_scores.values())`. -/
def maxScore (content : String) : ℕ :=
  ((categoryScores content).map Prod.snd).foldl max 0

/-- Python `max(pairs, key=value)`: left scan keeping the current
element unless a later one is strictly greater (first maximum wins). -/
def maxByValue (l : List (String × ℕ)) : Option (String × ℕ) :=
  l.foldl (fun acc p =>
    match acc with
    | none => some p
    | some q => if p.2 > q.2 then some p else some q) none

/-- `routing_analysis['primary_category']`: stays `"general"` unless
`max_score > 0`, in which case it is the first key of the scores dict
attaining the maximum. -/
def primaryCategory (content : String) : String :=
  if 0 < maxScore content then
    ((maxByValue (categoryScores content)).getD ("general", 0)).1
  else "general"

/-- `len(input_content.split())`. -/
def wordCount (content : String) : ℕ :=
  (splitWs content).length

/-- `routing_analysis['confidence']`: stays `0.0` unless `max_score > 0`,
in which case it is `max_score / len(input_content.split()) * 100`
(no clamping in the source). -/
def confidence (content : String) : ℚ :=
  if 0 < maxScore content then
    (maxScore content : ℚ) / (wordCount content : ℚ) * 100
  else 0

/-- `routing_analysis['content_type']` (if/elif keyword chain). -/
def contentType (content : String) : String :=
  let cl := lowerStr content
  if ["class", "function", "method",
      "import", "def", "var", "const"].any (strContains cl) then "code"
  else if ["# ", "## ", "### ", "markdown",
      "documentation"].any (strContains cl) then "documentation"
  else if ["meeting", "discussion", "notes",
      "agenda"].any (strContains cl) then "meeting_notes"
  else if ["decision", "choice", "option",
      "alternative"].any (strContains cl) then "decision_record"
  else if ["bug", "issue", "fix", "error",
      "problem"].any (strContains cl) then "issue_report"
  else "general_content"

/-- A routing suggestion entry (`file`, `reason`, `priority`). -/
structure Suggestion where
  file : String
  reason : String
  priority : String
deriving DecidableEq, Repr

/-- The `routing_suggestions` list as appended by the category-based and
content-type-based `if` blocks of `smart_project_analysis_and_routing`. -/
def routingSuggestionsRaw (content : String) : List Suggestion :=
  let cl := lowerStr content
  let pc := primaryCategory content
  let ct := contentType content
  (if pc = "context" then
    (if strContains cl "overview" then
      [⟨"context/overview.md", "Contains project overview information",
        "high"⟩] else []) ++
    (if ["stakeholder", "team", "role"].any (strContains cl) then
      [⟨"context/stakeholders.md", "Contains stakeholder information",
        "high"⟩] else []) ++
    (if ["metric", "kpi", "success", "performance"].any (strContains cl) then
      [⟨"context/success_metrics.md", "Contains success metrics and KPIs",
        "medium"⟩] else [])
  else if pc = "tech_specs" then
    (if ["architecture", "design", "pattern"].any (strContains cl) then
      [⟨"tech_specs/system_architecture.md",
        "Contains system architecture information", "high"⟩] else []) ++
    (if ["api", "endpoint", "rest", "graphql"].any (strContains cl) then
      [⟨"tech_specs/api_reference.md", "Contains API documentation",
        "high"⟩] else []) ++
    (if ["data", "flow", "pipeline"].any (strContains cl) then
      [⟨"tech_specs/data_flow.md", "Contains data flow information",
        "medium"⟩] else [])
  else if pc = "devops" then
    (if ["deploy", "deployment", "infrastructure"].any (strContains cl) then
      [⟨"devops/deployment_architecture.md",
        "Contains deployment information", "high"⟩] else []) ++
    (if ["ci/cd", "pipeline", "build"].any (strContains cl) then
      [⟨"devops/ci_cd_pipeline.md",
        "Contains CI/CD pipeline information", "high"⟩] else [])
  else if pc = "dynamic_meta" then
    (if ct = "decision_record" then
      [⟨"dynamic_meta/decision_logs.md", "Contains decision information",
        "high"⟩] else []) ++
    (if ["change", "update", "modify"].any (strContains cl) then
      [⟨"dynamic_meta/change_log.md", "Contains change information",
        "high"⟩] else []) ++
    (if ["config", "configuration", "setting"].any (strContains cl) then
      [⟨"dynamic_meta/config_map.md",
        "Contains configuration information", "medium"⟩] else [])
  else []) ++
  (if ct = "meeting_notes" then
    [⟨"dynamic_meta/change_log.md",
      "Meeting notes should be logged as changes", "medium"⟩] else []) ++
  (if ct = "issue_report" then
    [⟨"dynamic_meta/change_log.md",
      "Issue reports should be tracked in change log", "high"⟩] else [])

/-- Deduplication by target file, first occurrence winning
(the `seen_files` loop). -/
def dedupByFile : List Suggestion → List String → List Suggestion
  | [], _ => []
  | s :: rest, seen =>
    if s.file ∈ seen then dedupByFile rest seen
    else s :: dedupByFile rest (s.file :: seen)

/-- `priority_order = {'high': 0, 'medium': 1, 'low': 2}` with
`.get(_, 3)` as the sort key. -/
def priorityOrder (p : String) : ℕ :=
  if p = "high" then 0 else if p = "medium" then 1
  else if p = "low" then 2 else 3

/-- Python's stable `sort(key=priority_order)` on the 4-valued key,
rendered as a partition concatenation. -/
def sortByPriority (l : List Suggestion) : List Suggestion :=
  (l.filter (fun s => priorityOrder s.priority = 0)) ++
  (l.filter (fun s => priorityOrder s.priority = 1)) ++
  (l.filter (fun s => priorityOrder s.priority = 2)) ++
  (l.filter (fun s => priorityOrder s.priority = 3))

/-- Outcome of `smart_project_analysis_and_routing`: either the early
"Input Content Required" return for falsy input, or the analysis report
(primary category, confidence, deduplicated sorted suggestions). -/
inductive RouteResult where
  | inputRequired : RouteResult
  | report (primaryCategory : String) (confidence : ℚ)
      (suggestions : List Suggestion) : RouteResult
deriving Repr

/-- `smart_project_analysis_and_routing(input_content)`. -/
def smartProjectAnalysisAndRouting (inputContent : String) : RouteResult :=
  if inputContent = "" then RouteResult.inputRequired
  else
    RouteResult.report (primaryCategory inputContent)
      (confidence inputContent)
      (sortByPriority (dedupByFile (routingSuggestionsRaw inputContent) []))

/-! ### `suggest_files_to_update` (`tools.py`) -/

/-- Insertion of a string into a `≤`-sorted list. -/
def insertSorted (x : String) : List String → List String
  | [] => [x]
  | y :: rest => if x ≤ y then x :: y :: rest else y :: insertSorted x rest

/-- Python `suggestions = list(set(suggestions)); suggestions.sort()`:
deduplicate, then sort lexicographically. -/
def sortStrings (l : List String) : List String :=
  l.dedup.foldr insertSorted []

/-- The keyword-triggered suggestion list of `suggest_files_to_update`
(the change log is always first). -/
def suggestKeywordFiles (textLower : String) : List String :=
  ["dynamic_meta/change_log.md"] ++
  (if ["architecture", "system", "design", "structure",
       "component"].any (strContains textLower) then
    ["tech_specs/system_architecture.md", "tech_specs/data_flow.md"]
   else []) ++
  (if ["api", "endpoint", "service", "interface", "rest",
       "graphql"].any (strContains textLower) then
    ["tech_specs/api_reference.md", "tech_specs/system_architecture.md"]
   else []) ++
  (if ["database", "data", "schema", "model", "storage",
       "query"].any (strContains textLower) then
    ["tech_specs/data_flow.md", "tech_specs/system_architecture.md"]
   else []) ++
  (if ["deploy", "devops", "ci/cd", "pipeline", "infrastructure",
       "docker", "kubernetes"].any (strContains textLower) then
    ["devops/deployment_architecture.md", "devops/ci_cd_pipeline.md"]
   else []) ++
  (if ["config", "setting", "environment", "variable",
       "parameter"].any (strContains textLower) then
    ["dynamic_meta/config_map.md"]
   else []) ++
  (if ["decision", "choice", "alternative", "option",
       "strategy"].any (strContains textLower) then
    ["dynamic_meta/decision_logs.md"]
   else []) ++
  (if ["user", "stakeholder", "customer", "requirement",
       "persona"].any (strContains textLower) then
    ["context/stakeholders.md", "context/overview.md"]
   else []) ++
  (if ["feature", "functionality", "capability", "module",
       "component"].any (strContains textLower) then
    ["context/overview.md", "tech_specs/system_architecture.md"]
   else []) ++
  (if ["performance", "monitoring", "metrics", "logging",
       "observability"].any (strContains textLower) then
    ["devops/deployment_architecture.md", "tech_specs/system_architecture.md"]
   else []) ++
  (if ["security", "authentication", "authorization", "access",
       "permission"].any (strContains textLower) then
    ["tech_specs/system_architecture.md", "tech_specs/api_reference.md"]
   else []) ++
  (if ["test", "testing", "qa", "quality",
       "validation"].any (strContains textLower) then
    ["tech_specs/system_architecture.md", "devops/ci_cd_pipeline.md"]
   else [])

/-- The existence filtering and final assembly of
`suggest_files_to_update`, with the filesystem abstracted as the list
`existing` of memory-bank files present on disk: existing suggestions
first, then up to three `CREATE:` entries for missing ones, then
`context/overview.md` pushed to the front when present on disk and not
already listed, truncated to ten entries. -/
def finalSuggestions (existing : List String)
    (suggestions : List String) : List String :=
  let existingFiles := suggestions.filter (fun s => s ∈ existing)
  let missingFiles := suggestions.filter (fun s => s ∉ existing)
  let fs := existingFiles ++ (missingFiles.take 3).map (fun f => "CREATE: " ++ f)
  let fs2 :=
    if "context/overview.md" ∉ fs ∧ "context/overview.md" ∈ existing then
      "context/overview.md" :: fs
    else fs
  fs2.take 10

/-- Outcome of `suggest_files_to_update`: either the early
"Input text required" return for falsy input, or the suggestion list. -/
inductive SuggestResult where
  | inputRequired : SuggestResult
  | files (l : List String) : SuggestResult
deriving DecidableEq, Repr

/-- `suggest_files_to_update(input_text)` with the filesystem abstracted
as the list `existing`. -/
def suggestFilesToUpdate (existing : List String)
    (inputText : String) : SuggestResult :=
  if inputText = "" then SuggestResult.inputRequired
  else
    SuggestResult.files
      (finalSuggestions existing
        (sortStrings (suggestKeywordFiles (lowerStr inputText))))

/-! ### Behavior profiler (`middlewares.py`,
`AgentBehaviorProfilerMiddleware`) -/

/-- `self.memory_bank_tools`. -/
def memoryBankTools : List String :=
  ["suggest_files_to_update", "smart_content_analysis_and_routing",
   "intelligent_context_executor", "analyze_project_summary",
   "auto_detect_project_changes", "generate_memory_bank_template",
   "get_memory_bank_structure", "create_memory_bank_structure"]

/-- `self.core_dev_tools`. -/
def coreDevTools : List String :=
  ["edit_file", "run_terminal_cmd", "search_replace", "delete_file",
   "edit_notebook", "create_diagram", "grep_search", "codebase_search"]

/-- Per-session profiler state: the `tool_usage` counter (as an
association list), the two category counters, and the ordered
`tool_sequence` (timestamps dropped; only tool names matter here). -/
structure SessionStats where
  toolUsage : List (String × ℕ)
  memoryToolsUsed : ℕ
  coreToolsUsed : ℕ
  toolSequence : List String
deriving DecidableEq, Repr

/-- The fresh state produced by the `defaultdict` factory. -/
def initStats : SessionStats := ⟨[], 0, 0, []⟩

/-- `Counter` increment: `stats['tool_usage'][tool_name] += 1`. -/
def bumpCount : List (String × ℕ) → String → List (String × ℕ)
  | [], t => [(t, 1)]
  | (n, c) :: rest, t =>
    if n = t then (n, c + 1) :: rest else (n, c) :: bumpCount rest t

/-- The state update performed by
`AgentBehaviorProfilerMiddleware.on_call_tool`: bump the usage counter,
append to the sequence, and bump the memory (`if`) or core (`elif`)
category counter. -/
def recordToolCall (s : SessionStats) (tool : String) : SessionStats :=
  { toolUsage := bumpCount s.toolUsage tool
    memoryToolsUsed :=
      if tool ∈ memoryBankTools then s.memoryToolsUsed + 1
      else s.memoryToolsUsed
    coreToolsUsed :=
      if tool ∉ memoryBankTools ∧ tool ∈ coreDevTools then
        s.coreToolsUsed + 1
      else s.coreToolsUsed
    toolSequence := s.toolSequence ++ [tool] }

/-- Total of the per-tool counts (`sum(stats['tool_usage'].values())`). -/
def countsTotal (s : SessionStats) : ℕ :=
  (s.toolUsage.map Prod.snd).sum

/-- `memory_adherence_ratio` from `_generate_behavior_report`:
`memory_tools_used / total_tools if total_tools > 0 else 0`. -/
def memoryAdherenceRatio (s : SessionStats) : ℚ :=
  let total := s.memoryToolsUsed + s.coreToolsUsed
  if 0 < total then (s.memoryToolsUsed : ℚ) / (total : ℚ) else 0

/-- The assessment label written by `_write_behavior_report`:
`"EXCELLENT" if ratio > 0.8 else "GOOD" if ratio > 0.5
else "NEEDS IMPROVEMENT"`. -/
def adherenceAssessment (ratio : ℚ) : String :=
  if ratio > 8/10 then "EXCELLENT"
  else if ratio > 5/10 then "GOOD"
  else "NEEDS IMPROVEMENT"

/-- Result of `_analyze_tool_patterns`: matched pattern strings (capped
to five), the follow-up rate (a percentage, kept as an exact rational;
the code formats it to one decimal), and the two counters (taken as zero
in the short-sequence branch, which omits them from the dict). -/
structure PatternAnalysis where
  patterns : List String
  memoryFollowUpRate : ℚ
  coreToolUses : ℕ
  memoryFollowUps : ℕ
deriving Repr

/-- The adjacent pairs `(sequence[i], sequence[i+1])` for
`i in range(len(sequence) - 1)`. -/
def adjacentPairs : List String → List (String × String)
  | [] => []
  | [_] => []
  | a :: b :: rest => (a, b) :: adjacentPairs (b :: rest)

/-- The loop body of `_analyze_tool_patterns`: bump `core_tool_uses` when
the left tool of the adjacent pair is a core tool, and additionally bump
`memory_follow_ups` and record the pattern string when the right tool is
a memory tool. -/
def patternStep (acc : List String × ℕ × ℕ) (p : String × String) :
    List String × ℕ × ℕ :=
  if p.1 ∈ coreDevTools then
    if p.2 ∈ memoryBankTools then
      (acc.1 ++ [p.1 ++ " → " ++ p.2], acc.2.1 + 1, acc.2.2 + 1)
    else (acc.1, acc.2.1 + 1, acc.2.2)
  else acc

/-- `AgentBehaviorProfilerMiddleware._analyze_tool_patterns(sequence)`:
early exit for sequences shorter than two; otherwise scan adjacent
pairs with `patternStep`; the rate is `follow_ups / core_uses * 100`,
zero when no core use was seen. -/
def analyzeToolPatterns (seq : List String) : PatternAnalysis :=
  if seq.length < 2 then ⟨[], 0, 0, 0⟩
  else
    let scan := (adjacentPairs seq).foldl patternStep ([], 0, 0)
    let coreUses := scan.2.1
    let followUps := scan.2.2
    let rate : ℚ :=
      if 0 < coreUses then (followUps : ℚ) / (coreUses : ℚ) * 100 else 0
    ⟨scan.1.take 5, rate, coreUses, followUps⟩

/-! ### Shared helper lemmas -/

/-- `maxScore` spelt out as the maximum of the four category scores. -/
theorem maxScore_eq (content : String) :
    maxScore content =
      max (max (max (categoryScore contextIndicators (lowerStr content))
        (categoryScore techIndicators (lowerStr content)))
        (categoryScore devopsIndicators (lowerStr content)))
        (categoryScore metaIndicators (lowerStr content)) := by
  simp [maxScore, categoryScores, List.foldl]

/-- `maxByValue` on a four-entry list picks the first entry whose value
attains the maximum. -/
theorem firstMax4 (c1 c2 c3 c4 : ℕ) (s1 s2 s3 s4 : String) :
    ((maxByValue [(s1, c1), (s2, c2), (s3, c3), (s4, c4)]).getD
      ("general", 0)).1 =
    (if c1 = max (max (max c1 c2) c3) c4 then s1
     else if c2 = max (max (max c1 c2) c3) c4 then s2
     else if c3 = max (max (max c1 c2) c3) c4 then s3
     else s4) := by
  simp only [maxByValue, List.foldl]
  by_cases h12 : c2 > c1
  · by_cases h23 : c3 > c2
    · by_cases h34 : c4 > c3
      · simp only [h12, h23, h34, if_true]
        rw [if_neg (by omega), if_neg (by omega), if_neg (by omega)]
        rfl
      · simp only [h12, h23, h34, if_true, if_false]
        rw [if_neg (by omega), if_neg (by omega), if_pos (by omega)]
        rfl
    · by_cases h24 : c4 > c2
      · simp only [h12, h23, h24, if_true, if_false]
        rw [if_neg (by omega), if_neg (by omega), if_neg (by omega)]
        rfl
      · simp only [h12, h23, h24, if_true, if_false]
        rw [if_neg (by omega), if_pos (by omega)]
        rfl
  · by_cases h13 : c3 > c1
    · by_cases h34 : c4 > c3
      · simp only [h12, h13, h34, if_true, if_false]
        rw [if_neg (by omega), if_neg (by omega), if_neg (by omega)]
        rfl
      · simp only [h12, h13, h34, if_true, if_false]
        rw [if_neg (by omega), if_neg (by omega), if_pos (by omega)]
        rfl
    · by_cases h14 : c4 > c1
      · simp only [h12, h13, h14, if_true, if_false]
        rw [if_neg (by omega), if_neg (by omega), if_neg (by omega)]
        rfl
      · simp only [h12, h13, h14, if_true, if_false]
        rw [if_pos (by omega)]
        rfl

/-- The 0.3 threshold comparison on the Jaccard quotient, cross-multiplied. -/
theorem threshold_iff (i u : ℕ) (hu : 0 < u) :
    (3/10 : ℚ) < (i : ℚ) / (u : ℚ) ↔ 3 * u < 10 * i := by
  rw [div_lt_div_iff₀ (by norm_num) (by exact_mod_cast hu)]
  constructor
  · intro h
    have h' : (3 : ℚ) * u < 10 * i := by linarith
    exact_mod_cast h'
  · intro h
    have h' : (3 : ℚ) * u < 10 * i := by exact_mod_cast h
    linarith

/-- The faithful rational form and the executable integer form of the
redundancy scan agree. -/
theorem findSimilarContent_eq_run :
    findSimilarContent = findSimilarRun := by
  funext content currentFile files
  unfold findSimilarContent findSimilarRun
  refine List.filterMap_congr (fun f _ => ?_)
  by_cases hself : isSelfPath currentFile f.relativePath
  · simp [hself]
  · simp only [hself, Bool.false_eq_true, if_false]
    unfold similarityOpt
    by_cases hu : 0 < (wordSet content ∪ wordSet f.content).card
    · simp only [hu, if_true, true_and, threshold_iff _ _ hu]
    · simp [hu]

/-! ### C1: threshold semantics of the redundancy report -/

/-- C1 counterexample: a pair of contents with Jaccard similarity exactly
0.3 against a non-self file is NOT reported, refuting the claim that
similarity ≥ 0.3 is reported. -/
theorem C1_counterexample :
    similarityOpt (wordSet "a b c d e f g") (wordSet "a b c h i j") =
      some (3/10) ∧
    isSelfPath "notes.md" "other.md" = false ∧
    findSimilarContent "a b c d e f g" "notes.md"
      [⟨"other.md", "a b c h i j"⟩] = [] := by
  refine ⟨?_, by decide, by rw [findSimilarContent_eq_run]; decide⟩
  have hi : (wordSet "a b c d e f g" ∩ wordSet "a b c h i j").card = 3 := by
    decide
  have hu : (wordSet "a b c d e f g" ∪ wordSet "a b c h i j").card = 10 := by
    decide
  simp [similarityOpt, hi, hu]

/-- C1 (amended): the redundancy check reports a documentation file as
similar if and only if some listed file has that path, is not excluded by
the path-suffix self-comparison test, has a non-empty word-set union
with the content, and its Jaccard similarity is STRICTLY greater than
0.3; a pair whose similarity equals exactly 0.3 is not reported. -/
theorem C1_similar_iff (content currentFile p : String)
    (files : List DocFile) :
    p ∈ findSimilarContent content currentFile files ↔
      ∃ f ∈ files, f.relativePath = p ∧
        isSelfPath currentFile f.relativePath = false ∧
        ∃ sim : ℚ,
          similarityOpt (wordSet content) (wordSet f.content) = some sim ∧
          3/10 < sim := by
  unfold findSimilarContent
  rw [List.mem_filterMap]
  constructor
  · rintro ⟨f, hf, hout⟩
    refine ⟨f, hf, ?_⟩
    by_cases hself : isSelfPath currentFile f.relativePath
    · simp [hself] at hout
    · rcases hs : similarityOpt (wordSet content) (wordSet f.content)
        with _ | sim
      · simp [hself, hs] at hout
      · by_cases ht : (3/10 : ℚ) < sim
        · simp only [hself, Bool.false_eq_true, if_false, hs, ht, if_true,
            Option.some.injEq] at hout
          exact ⟨hout, by simp [hself], sim, by simp [hs], ht⟩
        · simp [hself, hs, ht] at hout
  · rintro ⟨f, hf, hp, hself, sim, hs, ht⟩
    refine ⟨f, hf, ?_⟩
    simp only [hself, Bool.false_eq_true, if_false, hs, ht, if_true]
    exact congrArg some hp

/-! ### C2: no minimum-token skip exists -/

/-- C2 counterexample: a content of only 3 whitespace tokens is compared
and reported, refuting the claim that contents with fewer than 10 tokens
always yield an empty list. -/
theorem C2_counterexample :
    (splitWs "alpha beta gamma").length < 10 ∧
    findSimilarContent "alpha beta gamma" "notes.md"
      [⟨"other.md", "alpha beta gamma"⟩] ≠ [] := by
  refine ⟨by decide, ?_⟩
  rw [findSimilarContent_eq_run]
  decide

/-- C2 (amended): the redundancy check has no minimum-token guard; short
content is compared like any other, so a 3-token content identical to
another file is reported as similar. -/
theorem C2_no_min_token_skip :
    (splitWs "alpha beta gamma").length = 3 ∧
    findSimilarContent "alpha beta gamma" "notes.md"
      [⟨"other.md", "alpha beta gamma"⟩] = ["other.md"] := by
  refine ⟨by decide, ?_⟩
  rw [findSimilarContent_eq_run]
  decide

/-! ### C3: algebraic properties of the similarity -/

/-- C3 counterexample: for two empty token sets the code computes no
similarity at all (the `union > 0` guard fails) and reports nothing,
refuting the claim that similarity(∅,∅) is defined as 1. -/
theorem C3_counterexample :
    wordSet "" = ∅ ∧
    similarityOpt (∅ : Finset String) ∅ = none ∧
    similarityOpt (∅ : Finset String) ∅ ≠ some 1 ∧
    findSimilarContent "" "notes.md" [⟨"other.md", ""⟩] = [] := by
  refine ⟨by decide, by simp [similarityOpt], by simp [similarityOpt], ?_⟩
  rw [findSimilarContent_eq_run]
  decide

/-- C3 (amended): the similarity is Jaccard `|A∩B|/|A∪B|` over lowercased
whitespace-split token sets whenever the union is non-empty; it is
symmetric, bounded in [0,1], and equals 1 on any non-empty set compared
with itself; when both sets are empty no similarity is computed (the
degenerate case is skipped, not defined as 1). -/
theorem C3_similarity_properties :
    (∀ A B : Finset String, similarityOpt A B = similarityOpt B A) ∧
    (∀ (A B : Finset String) (q : ℚ),
      similarityOpt A B = some q → 0 ≤ q ∧ q ≤ 1) ∧
    (∀ A : Finset String, A.Nonempty → similarityOpt A A = some 1) ∧
    similarityOpt (∅ : Finset String) ∅ = none := by
  refine ⟨?_, ?_, ?_, by simp [similarityOpt]⟩
  · intro A B
    unfold similarityOpt
    rw [Finset.inter_comm A B, Finset.union_comm A B]
  · intro A B q h
    unfold similarityOpt at h
    split_ifs at h with hu
    rw [Option.some.injEq] at h
    subst h
    constructor
    · positivity
    · rw [div_le_one (by exact_mod_cast hu)]
      exact_mod_cast Finset.card_le_card
        (Finset.inter_subset_union (s := A) (t := B))
  · intro A hA
    have hc : 0 < A.card := Finset.card_pos.mpr hA
    unfold similarityOpt
    rw [Finset.inter_self, Finset.union_self, if_pos hc,
      div_self (by exact_mod_cast hc.ne')]

/-- C3 witness: the amended properties evaluated at the concrete
singleton token set of `"a"`. -/
theorem C3_witness :
    similarityOpt (wordSet "a") (wordSet "a") = some 1 ∧
    ((0 : ℚ) ≤ 1 ∧ (1 : ℚ) ≤ 1) := by
  have hne : (wordSet "a").Nonempty := ⟨"a", by decide⟩
  have h1 := C3_similarity_properties.2.2.1 (wordSet "a") hne
  exact ⟨h1, C3_similarity_properties.2.1 (wordSet "a") (wordSet "a") 1 h1⟩

/-! ### C4: the confidence value is not clamped -/

/-- C4 counterexample: the one-word content `"deployserver"` contains the
two devops keywords `deploy` and `server`, so the confidence is
2 / 1 × 100 = 200 > 100, refuting the claimed clamping to [0,100]. -/
theorem C4_counterexample :
    confidence "deployserver" = 200 ∧
    ¬ confidence "deployserver" ≤ 100 := by
  have h : maxScore "deployserver" = 2 := by decide
  have hw : wordCount "deployserver" = 1 := by decide
  have hc : confidence "deployserver" = 200 := by
    rw [confidence, h, hw]
    norm_num
  exact ⟨hc, by rw [hc]; norm_num⟩

/-- C4 (amended): whenever some category keyword matches, the confidence
equals (winning keyword count / total word count) × 100 and is
non-negative; the source applies no upper clamp, so values above 100 are
possible. -/
theorem C4_confidence_unclamped (content : String)
    (h : 0 < maxScore content) :
    confidence content =
      (maxScore content : ℚ) / (wordCount content : ℚ) * 100 ∧
    0 ≤ confidence content := by
  have hc : confidence content =
      (maxScore content : ℚ) / (wordCount content : ℚ) * 100 := by
    rw [confidence, if_pos h]
  refine ⟨hc, ?_⟩
  rw [hc]
  exact mul_nonneg
    (div_nonneg (Nat.cast_nonneg _) (Nat.cast_nonneg _)) (by norm_num)

/-- C4 witness: the amended statement at the concrete content
`"deployserver"`. -/
theorem C4_witness :
    0 < maxScore "deployserver" ∧
    (confidence "deployserver" =
      (maxScore "deployserver" : ℚ) / (wordCount "deployserver" : ℚ) * 100 ∧
     0 ≤ confidence "deployserver") :=
  ⟨by decide, C4_confidence_unclamped "deployserver" (by decide)⟩

/-! ### C5: primary category selection -/

/-- C5 counterexample: a content matching no keyword has all four
category scores zero and the router labels it `"general"`, which is not
one of the four fixed categories, refuting the claim for every input. -/
theorem C5_counterexample :
    primaryCategory "zzzz" = "general" ∧
    "general" ∉ (["context", "tech_specs", "devops",
      "dynamic_meta"] : List String) := by
  constructor
  · decide
  · decide

/-- C5 (amended): when at least one keyword matches (`max_score > 0`),
the primary category is the earliest category in declaration order
context > tech_specs > devops > dynamic_meta whose keyword count attains
the maximum; when no keyword matches, the primary category is the
fallback label `"general"`. -/
theorem C5_primary_category (content : String) :
    (maxScore content = 0 → primaryCategory content = "general") ∧
    (0 < maxScore content →
      primaryCategory content =
        (if categoryScore contextIndicators (lowerStr content) =
            maxScore content then "context"
         else if categoryScore techIndicators (lowerStr content) =
            maxScore content then "tech_specs"
         else if categoryScore devopsIndicators (lowerStr content) =
            maxScore content then "devops"
         else "dynamic_meta")) := by
  constructor
  · intro h0
    rw [primaryCategory, if_neg (by omega)]
  · intro hpos
    rw [primaryCategory, if_pos hpos]
    have hfm := firstMax4 (categoryScore contextIndicators (lowerStr content))
      (categoryScore techIndicators (lowerStr content))
      (categoryScore devopsIndicators (lowerStr content))
      (categoryScore metaIndicators (lowerStr content))
      "context" "tech_specs" "devops" "dynamic_meta"
    simp only [categoryScores]
    rw [hfm, maxScore_eq]

/-- C5 witness: the amended statement applied at the keyword-free content
`"zzz"` (fallback branch) and at `"architecture"` (positive branch). -/
theorem C5_witness :
    primaryCategory "zzz" = "general" ∧
    primaryCategory "architecture" = "tech_specs" := by
  constructor
  · exact (C5_primary_category "zzz").1 (by decide)
  · have h := (C5_primary_category "architecture").2 (by decide)
    rw [h]
    decide

/-! ### C9: empty required input yields a structured error result -/

/-- C9: calling the content router with the empty string returns the
structured "input required" result (which carries no suggestions) rather
than an analysis report, and `suggest_files_to_update` behaves the same
for its empty required text input whatever files exist on disk; both
embedded functions are total, so no exception escapes. -/
theorem C9_empty_input_is_error :
    smartProjectAnalysisAndRouting "" = RouteResult.inputRequired ∧
    ∀ existing : List String,
      suggestFilesToUpdate existing "" = SuggestResult.inputRequired :=
  ⟨rfl, fun _ => rfl⟩

/-! ### C6: pattern mining helper lemmas -/

/-- The adjacent pairs of a list are its zip with its own tail. -/
theorem adjacentPairs_eq_zip (l : List String) :
    adjacentPairs l = l.zip l.tail := by
  induction l with
  | nil => rfl
  | cons a t ih =>
    cases t with
    | nil => rfl
    | cons b r => simp [adjacentPairs, ih]

/-- The left components of the adjacent pairs are all but the last
element. -/
theorem map_fst_zip_tail (l : List String) :
    (l.zip l.tail).map Prod.fst = l.dropLast := by
  induction l with
  | nil => rfl
  | cons a t ih =>
    cases t with
    | nil => rfl
    | cons b r => simpa using ih

/-- Running the pattern scan adds to the accumulator exactly the number
of pairs whose left tool is a core tool, and among those the number whose
right tool is a memory tool. -/
theorem patternScan_counts (l : List (String × String)) :
    ∀ pats cu fu,
      ((l.foldl patternStep (pats, cu, fu)).2.1 =
        cu + (l.filter (fun p => decide (p.1 ∈ coreDevTools))).length) ∧
      ((l.foldl patternStep (pats, cu, fu)).2.2 =
        fu + (l.filter (fun p =>
          decide (p.1 ∈ coreDevTools) &&
          decide (p.2 ∈ memoryBankTools))).length) := by
  induction l with
  | nil =>
    intro pats cu fu
    simp
  | cons p rest ih =>
    intro pats cu fu
    simp only [List.foldl_cons, List.filter_cons]
    by_cases h1 : p.1 ∈ coreDevTools
    · by_cases h2 : p.2 ∈ memoryBankTools
      · have hstep : patternStep (pats, cu, fu) p =
            (pats ++ [p.1 ++ " → " ++ p.2], cu + 1, fu + 1) := by
          simp [patternStep, h1, h2]
        rw [hstep]
        rcases ih (pats ++ [p.1 ++ " → " ++ p.2]) (cu + 1) (fu + 1)
          with ⟨ha, hb⟩
        refine ⟨?_, ?_⟩
        · rw [ha]
          simp [h1, h2]
          omega
        · rw [hb]
          simp [h1, h2]
          omega
      · have hstep : patternStep (pats, cu, fu) p = (pats, cu + 1, fu) := by
          simp [patternStep, h1, h2]
        rw [hstep]
        rcases ih pats (cu + 1) fu with ⟨ha, hb⟩
        refine ⟨?_, ?_⟩
        · rw [ha]
          simp [h1, h2]
          omega
        · rw [hb]
          simp [h1, h2]
    · have hstep : patternStep (pats, cu, fu) p = (pats, cu, fu) := by
        simp [patternStep, h1]
      rw [hstep]
      rcases ih pats cu fu with ⟨ha, hb⟩
      refine ⟨?_, ?_⟩
      · rw [ha]
        simp [h1]
      · rw [hb]
        simp [h1]

/-- `analyzeToolPatterns` spelt out on sequences of length at least two. -/
theorem analyzeToolPatterns_eq (seq : List String)
    (h : ¬ seq.length < 2) :
    analyzeToolPatterns seq =
      ⟨((adjacentPairs seq).foldl patternStep ([], 0, 0)).1.take 5,
       (if 0 < ((adjacentPairs seq).foldl patternStep ([], 0, 0)).2.1 then
          (((adjacentPairs seq).foldl patternStep ([], 0, 0)).2.2 : ℚ) /
            (((adjacentPairs seq).foldl patternStep ([], 0, 0)).2.1 : ℚ) *
            100
        else 0),
       ((adjacentPairs seq).foldl patternStep ([], 0, 0)).2.1,
       ((adjacentPairs seq).foldl patternStep ([], 0, 0)).2.2⟩ := by
  rw [analyzeToolPatterns, if_neg h]

/-! ### C6: pattern mining counts -/

/-- C6 counterexample: on the tool sequence
`[edit_file, suggest_files_to_update, run_terminal_cmd]` the scan only
visits adjacent pairs, so the trailing core tool is not counted and
`core_tool_uses` is 1, not the claimed 2. -/
theorem C6_counterexample :
    (analyzeToolPatterns
      ["edit_file", "suggest_files_to_update",
       "run_terminal_cmd"]).coreToolUses ≠ 2 := by
  decide

/-- C6 (amended): on the sequence
`[edit_file, suggest_files_to_update, run_terminal_cmd]` the miner
reports `core_tool_uses = 1`, `memory_follow_ups = 1` and a follow-up
rate of 100.0; in general, for sequences of length at least two,
`core_tool_uses` counts the core-tool uses in every position except the
last, and `memory_follow_ups` counts the adjacent pairs whose core tool
is immediately followed by a memory tool. -/
theorem C6_pattern_mining :
    ((analyzeToolPatterns
        ["edit_file", "suggest_files_to_update",
         "run_terminal_cmd"]).coreToolUses = 1 ∧
     (analyzeToolPatterns
        ["edit_file", "suggest_files_to_update",
         "run_terminal_cmd"]).memoryFollowUps = 1 ∧
     (analyzeToolPatterns
        ["edit_file", "suggest_files_to_update",
         "run_terminal_cmd"]).memoryFollowUpRate = 100) ∧
    ∀ seq : List String, 2 ≤ seq.length →
      (analyzeToolPatterns seq).coreToolUses =
        (seq.dropLast.filter (fun t => decide (t ∈ coreDevTools))).length ∧
      (analyzeToolPatterns seq).memoryFollowUps =
        ((seq.zip seq.tail).filter (fun p =>
          decide (p.1 ∈ coreDevTools) &&
          decide (p.2 ∈ memoryBankTools))).length := by
  constructor
  · refine ⟨by decide, by decide, ?_⟩
    have h : analyzeToolPatterns
        ["edit_file", "suggest_files_to_update", "run_terminal_cmd"] =
      ⟨["edit_file → suggest_files_to_update"],
        ((1 : ℕ) : ℚ) / ((1 : ℕ) : ℚ) * 100, 1, 1⟩ := rfl
    rw [h]
    norm_num
  · intro seq hlen
    have h2 : ¬ seq.length < 2 := by omega
    have hc := (patternScan_counts (adjacentPairs seq) [] 0 0).1
    have hf := (patternScan_counts (adjacentPairs seq) [] 0 0).2
    rw [analyzeToolPatterns_eq seq h2]
    constructor
    · show ((adjacentPairs seq).foldl patternStep ([], 0, 0)).2.1 = _
      rw [hc, adjacentPairs_eq_zip, ← map_fst_zip_tail seq,
        List.filter_map, List.length_map]
      simp only [Nat.zero_add]
      rfl
    · show ((adjacentPairs seq).foldl patternStep ([], 0, 0)).2.2 = _
      rw [hf, adjacentPairs_eq_zip]
      omega

/-- C6 witness: the general count characterization applied at the
two-element sequence `[edit_file, suggest_files_to_update]`. -/
theorem C6_witness :
    (analyzeToolPatterns
      ["edit_file", "suggest_files_to_update"]).coreToolUses =
      ((["edit_file", "suggest_files_to_update"] : List String).dropLast.filter
        (fun t => decide (t ∈ coreDevTools))).length :=
  (C6_pattern_mining.2 ["edit_file", "suggest_files_to_update"]
    (by decide)).1

/-! ### C7: memory adherence ratio -/

/-- C7: the memory adherence ratio equals
memoryToolCalls / (memoryToolCalls + coreToolCalls) whenever the
denominator is positive, is defined to be exactly 0 when the denominator
is zero, and always lies in [0,1]. -/
theorem C7_memory_adherence (s : SessionStats) :
    (0 < s.memoryToolsUsed + s.coreToolsUsed →
      memoryAdherenceRatio s =
        (s.memoryToolsUsed : ℚ) /
          ((s.memoryToolsUsed + s.coreToolsUsed : ℕ) : ℚ)) ∧
    (s.memoryToolsUsed + s.coreToolsUsed = 0 →
      memoryAdherenceRatio s = 0) ∧
    0 ≤ memoryAdherenceRatio s ∧ memoryAdherenceRatio s ≤ 1 := by
  refine ⟨fun h => ?_, fun h0 => ?_, ?_⟩
  · simp only [memoryAdherenceRatio]
    rw [if_pos h]
  · simp only [memoryAdherenceRatio]
    rw [if_neg (by omega)]
  · by_cases h : 0 < s.memoryToolsUsed + s.coreToolsUsed
    · have hr : memoryAdherenceRatio s =
          (s.memoryToolsUsed : ℚ) /
            ((s.memoryToolsUsed + s.coreToolsUsed : ℕ) : ℚ) := by
        simp only [memoryAdherenceRatio]
        rw [if_pos h]
      rw [hr]
      constructor
      · exact div_nonneg (Nat.cast_nonneg _) (Nat.cast_nonneg _)
      · rw [div_le_one (by exact_mod_cast h)]
        exact_mod_cast Nat.le_add_right _ _
    · have hr : memoryAdherenceRatio s = 0 := by
        simp only [memoryAdherenceRatio]
        rw [if_neg h]
      rw [hr]
      norm_num

/-- C7 witness: the ratio at a session with one memory and one core call,
and at the fresh session state with no calls. -/
theorem C7_witness :
    memoryAdherenceRatio ⟨[], 1, 1, []⟩ =
      ((1 : ℕ) : ℚ) / (((1 + 1 : ℕ)) : ℚ) ∧
    memoryAdherenceRatio initStats = 0 :=
  ⟨(C7_memory_adherence ⟨[], 1, 1, []⟩).1 (by norm_num),
   (C7_memory_adherence initStats).2.1 rfl⟩

/-! ### C8: the session assessment label -/

/-- C8 counterexample: at ratio 0.75 the report writes the label
`"GOOD"`, not the claimed `"Memory-Conscious"`; the code's labels are
EXCELLENT / GOOD / NEEDS IMPROVEMENT with thresholds 0.8 and 0.5. -/
theorem C8_counterexample :
    adherenceAssessment (3/4) = "GOOD" ∧
    adherenceAssessment (3/4) ≠ "Memory-Conscious" := by
  have h : adherenceAssessment (3/4) = "GOOD" := by
    rw [adherenceAssessment, if_neg (by norm_num), if_pos (by norm_num)]
  exact ⟨h, by rw [h]; decide⟩

/-- C8 (amended): the assessment label written in the session report is
derived from the adherence ratio by the fixed thresholds of the code:
ratio > 0.8 yields "EXCELLENT", 0.5 < ratio ≤ 0.8 yields "GOOD", and
ratio ≤ 0.5 yields "NEEDS IMPROVEMENT". -/
theorem C8_assessment_thresholds (r : ℚ) :
    (8/10 < r → adherenceAssessment r = "EXCELLENT") ∧
    (5/10 < r → r ≤ 8/10 → adherenceAssessment r = "GOOD") ∧
    (r ≤ 5/10 → adherenceAssessment r = "NEEDS IMPROVEMENT") := by
  refine ⟨fun h => ?_, fun h1 h2 => ?_, fun h => ?_⟩
  · rw [adherenceAssessment, if_pos h]
  · rw [adherenceAssessment, if_neg (by linarith), if_pos h1]
  · rw [adherenceAssessment, if_neg (by linarith), if_neg (by linarith)]

/-- C8 witness: the three threshold branches evaluated at the concrete
ratios 1, 3/4 and 0. -/
theorem C8_witness :
    adherenceAssessment 1 = "EXCELLENT" ∧
    adherenceAssessment (3/4) = "GOOD" ∧
    adherenceAssessment 0 = "NEEDS IMPROVEMENT" :=
  ⟨(C8_assessment_thresholds 1).1 (by norm_num),
   (C8_assessment_thresholds (3/4)).2.1 (by norm_num) (by norm_num),
   (C8_assessment_thresholds 0).2.2 (by norm_num)⟩

/-! ### C10: counter totals match the sequence length -/

/-- Bumping the usage counter raises the total of counts by one. -/
theorem bumpCount_sum (l : List (String × ℕ)) (t : String) :
    ((bumpCount l t).map Prod.snd).sum = (l.map Prod.snd).sum + 1 := by
  induction l with
  | nil => simp [bumpCount]
  | cons p rest ih =>
    by_cases h : p.1 = t
    · cases p
      simp_all [bumpCount]
      omega
    · cases p
      simp_all [bumpCount]
      omega

/-- C10: recording a tool call preserves the invariant that the total of
the per-tool counts equals the length of the ordered tool sequence, and
every state reached from the fresh session state by a list of recorded
calls satisfies it. -/
theorem C10_counts_match_sequence :
    (∀ (s : SessionStats) (tool : String),
      countsTotal s = s.toolSequence.length →
      countsTotal (recordToolCall s tool) =
        (recordToolCall s tool).toolSequence.length) ∧
    (∀ calls : List String,
      countsTotal (calls.foldl recordToolCall initStats) =
        (calls.foldl recordToolCall initStats).toolSequence.length) := by
  have hstep : ∀ (s : SessionStats) (tool : String),
      countsTotal (recordToolCall s tool) = countsTotal s + 1 := by
    intro s tool
    simp [countsTotal, recordToolCall, bumpCount_sum]
  have hlen : ∀ (s : SessionStats) (tool : String),
      (recordToolCall s tool).toolSequence.length =
        s.toolSequence.length + 1 := by
    intro s tool
    simp [recordToolCall]
  constructor
  · intro s tool h
    rw [hstep, hlen, h]
  · intro calls
    suffices hgen : ∀ s : SessionStats,
        countsTotal s = s.toolSequence.length →
        countsTotal (calls.foldl recordToolCall s) =
          (calls.foldl recordToolCall s).toolSequence.length from
      hgen initStats rfl
    induction calls with
    | nil => exact fun s hs => hs
    | cons c rest ih =>
      intro s hs
      simp only [List.foldl_cons]
      exact ih _ (by rw [hstep, hlen, hs])

/-- C10 witness: the preservation step applied at the fresh state and a
first `edit_file` call. -/
theorem C10_witness :
    countsTotal (recordToolCall initStats "edit_file") =
      (recordToolCall initStats "edit_file").toolSequence.length :=
  C10_counts_match_sequence.1 initStats "edit_file" rfl

end MemoryBank
